import Mathlib

/-!
Verification development for the shared-calendar reminder pipeline.

The definitions below are a shallow embedding of the TypeScript source:
* `src/drizzle/schema.ts` (+ migration 0005) — row types;
* `src/server/db.ts` — query/write helpers (`getPendingReminders`,
  `markReminderNotified`, `deleteEvent`, `getEventFriends`,
  `getTelegramSettings`, `sendTelegramMessage`, `getUserById`);
* `src/server/reminder-job.ts` — `processReminders`, `startReminderJob`;
* `src/app/(tabs)/index.tsx` — the recurrence evaluator `isEventOnDate`.

Timestamps are modelled as the millisecond value JavaScript obtains from the
stored naive wall-clock timestamp (`Date.getTime()`, UTC-interpreted), as an
`Int`.  A database that may be unavailable is an `Option DB`, mirroring the
`if (!db) …` guards in `db.ts`.  The outcome of an outbound HTTP call and of
the mark-notified write are oracle parameters (`FetchOutcome`, `markOk`),
standing for the only two effects that can fail at runtime.
-/

namespace SharedCalendar

/-- Row of the `reminders` table (schema.ts lines 99-105, migration 0005 adds
`customMessage`). -/
structure Reminder where
  id : Nat
  eventId : Nat
  minutesBefore : Nat
  notified : Bool
  notifiedAt : Option Int
  customMessage : Option String
  deriving Repr, DecidableEq

/-- Row of the `events` table (schema.ts lines 66-79), restricted to the
columns the reminder pipeline reads. -/
structure Event where
  id : Nat
  userId : Nat
  title : String
  location : Option String
  startTimeMs : Int
  notifySelf : Bool
  deriving Repr, DecidableEq

/-- Row of the `friends` table (migration 0005). -/
structure Friend where
  id : Nat
  userId : Nat
  name : String
  telegramChatId : Option String
  deriving Repr, DecidableEq

/-- Row of the `users` table, restricted to what the job reads. -/
structure User where
  id : Nat
  telegramUsername : Option String
  deriving Repr, DecidableEq

/-- Row of the `telegram_settings` table (schema.ts lines 113-122). -/
structure TelegramSetting where
  userId : Nat
  botToken : Option String
  chatId : Option String
  threadId : Option String
  enabled : Bool
  deriving Repr, DecidableEq

/-- Row of the `event_tags` join table. -/
structure EventTag where
  id : Nat
  eventId : Nat
  tagId : Nat
  deriving Repr, DecidableEq

/-- Row of the `event_friends` join table (migration 0005). -/
structure EventFriend where
  id : Nat
  eventId : Nat
  friendId : Nat
  deriving Repr, DecidableEq

/-- Row of the `event_departments` join table. -/
structure EventDepartment where
  id : Nat
  eventId : Nat
  departmentId : Nat
  deriving Repr, DecidableEq

/-- The tables touched by the reminder pipeline and by `deleteEvent`. -/
structure DB where
  users : List User
  events : List Event
  reminders : List Reminder
  eventTags : List EventTag
  eventFriends : List EventFriend
  eventDepartments : List EventDepartment
  friends : List Friend
  telegramSettings : List TelegramSetting
  deriving Repr, DecidableEq

/-- `8 * 60 * 60 * 1000` from db.ts line 251: the fixed GMT+8 offset added to
`Date.now()` to obtain Malaysia wall-clock time in comparable units. -/
def malaysiaOffset : Int := 8 * 60 * 60 * 1000

/-- The inner join of db.ts lines 255-262: every reminder row with
`notified = false` paired with each event row whose `id` equals the
reminder's `eventId`. -/
def joinPending (db : DB) : List (Reminder × Event) :=
  (db.reminders.filter (fun r => r.notified == false)).flatMap
    (fun r => (db.events.filter (fun e => e.id == r.eventId)).map (fun e => (r, e)))

/-- `getPendingReminders` (db.ts lines 240-284).  Returns `[]` when no
database connection is available; otherwise filters the joined rows by
`notifyTimeMs <= nowMalaysiaTime`, where `notifyTimeMs` is
`event.startTime.getTime() - minutesBefore * 60 * 1000` and
`nowMalaysiaTime` is `now.getTime() + malaysiaOffset`. -/
def getPendingReminders (dbOpt : Option DB) (nowUtcMs : Int) : List (Reminder × Event) :=
  match dbOpt with
  | none => []
  | some db =>
    let nowMalaysiaTime := nowUtcMs + malaysiaOffset
    (joinPending db).filter (fun p =>
      let notifyTimeMs := p.2.startTimeMs - (p.1.minutesBefore : Int) * 60 * 1000
      decide (notifyTimeMs ≤ nowMalaysiaTime))

/-- `markReminderNotified` (db.ts lines 286-290): sets `notified = true` and
`notifiedAt = new Date()` on the reminder row with the given id. -/
def markReminderNotified (db : DB) (id : Nat) (nowMs : Int) : DB :=
  { db with reminders := db.reminders.map (fun r =>
      if r.id == id then { r with notified := true, notifiedAt := some nowMs } else r) }

/-- `deleteEvent` (db.ts lines 188-195): deletes the event's `event_tags`
rows, then its `reminders` rows, then the event row itself (matched on both
id and owner).  No other table is touched. -/
def deleteEvent (db : DB) (id userId : Nat) : DB :=
  { db with
    eventTags := db.eventTags.filter (fun t => !(t.eventId == id)),
    reminders := db.reminders.filter (fun r => !(r.eventId == id)),
    events := db.events.filter (fun e => !(e.id == id && e.userId == userId)) }

/-- `getEventFriends` (db.ts lines 484-493): `[]` when the database is
unavailable, otherwise the `friends` rows joined through `event_friends`. -/
def getEventFriends (dbOpt : Option DB) (eventId : Nat) : List Friend :=
  match dbOpt with
  | none => []
  | some db =>
    (db.eventFriends.filter (fun ef => ef.eventId == eventId)).flatMap
      (fun ef => db.friends.filter (fun f => f.id == ef.friendId))

/-- `getUserById` (db.ts lines 117-122): `undefined` when the database is
unavailable, otherwise the first `users` row with the given id. -/
def getUserById (dbOpt : Option DB) (id : Nat) : Option User :=
  dbOpt.bind (fun db => db.users.find? (fun u => u.id == id))

/-- `getTelegramSettings` (db.ts lines 359-364): `undefined` when the
database is unavailable, otherwise the first settings row for the user. -/
def getTelegramSettings (dbOpt : Option DB) (userId : Nat) : Option TelegramSetting :=
  dbOpt.bind (fun db => db.telegramSettings.find? (fun s => s.userId == userId))

/-- Outcome of the single `fetch` call to the Telegram API: the request
either raises (network error) or yields a response with an `ok` flag. -/
inductive FetchOutcome where
  | throws
  | response (ok : Bool)
  deriving Repr, DecidableEq

/-- `sendTelegramMessage` (db.ts lines 377-411), instrumented with whether
the network call was reached.  Returns `(result, fetchAttempted)`:
* no settings row, `enabled` false, or `botToken` falsy → `(false, false)`
  before any network activity;
* no target chat id (`overrideChatId || settings.chatId` falsy) →
  `(false, false)`;
* otherwise the `fetch` is attempted: a raised error is caught and yields
  `false`, and an obtained response yields `response.ok`. -/
def sendTelegramMessageRun (dbOpt : Option DB) (userId : Nat) (_message : String)
    (overrideChatId : Option String) (fetch : FetchOutcome) : Bool × Bool :=
  match getTelegramSettings dbOpt userId with
  | none => (false, false)
  | some s =>
    if s.enabled = false then (false, false)
    else
      match s.botToken with
      | none => (false, false)
      | some _ =>
        match overrideChatId.orElse (fun _ => s.chatId) with
        | none => (false, false)
        | some _ =>
          match fetch with
          | FetchOutcome.throws => (false, true)
          | FetchOutcome.response ok => (ok, true)

/-- The boolean `sendTelegramMessage` returns to its caller. -/
def sendTelegramMessage (dbOpt : Option DB) (userId : Nat) (message : String)
    (overrideChatId : Option String) (fetch : FetchOutcome) : Bool :=
  (sendTelegramMessageRun dbOpt userId message overrideChatId fetch).1

/-! ### Message composition (reminder-job.ts lines 8-34 and 46-77) -/

/-- `REMINDER_LABELS` lookup with the `minutesBefore分後` fallback
(reminder-job.ts lines 8-14 and 46). -/
def reminderLabel (m : Nat) : String :=
  if m = 5 then "5分後"
  else if m = 15 then "15分後"
  else if m = 30 then "30分後"
  else if m = 60 then "1時間後"
  else if m = 1440 then "明日"
  else toString m ++ "分後"

/-- Left-pads a number below 10 with a zero, as `padStart(2, "0")` does. -/
def pad2 (n : Nat) : String :=
  if n < 10 then "0" ++ toString n else toString n

/-- `formatEventTime` (reminder-job.ts lines 20-24): `getUTCHours` /
`getUTCMinutes` of the stored millisecond value, i.e. no timezone
conversion. -/
def formatEventTime (ms : Int) : String :=
  let t := ms.toNat
  pad2 (t / 3600000 % 24) ++ ":" ++ pad2 (t / 60000 % 60)

/-- Civil date from a day count since 1970-01-01 (the arithmetic behind the
`getUTCMonth` / `getUTCDate` reads in `formatEventDate`). -/
def civilFromDays (days : Nat) : Nat × Nat × Nat :=
  let z := days + 719468
  let era := z / 146097
  let doe := z % 146097
  let yoe := (doe - doe / 1460 + doe / 36524 - doe / 146096) / 365
  let y := yoe + era * 400
  let doy := doe - (365 * yoe + yoe / 4 - yoe / 100)
  let mp := (5 * doy + 2) / 153
  let d := doy - (153 * mp + 2) / 5 + 1
  let m := if mp < 10 then mp + 3 else mp - 9
  (if m ≤ 2 then y + 1 else y, m, d)

/-- `formatEventDate` (reminder-job.ts lines 30-34): UTC month/day of the
stored millisecond value, rendered as `M月D日`. -/
def formatEventDate (ms : Int) : String :=
  let c := civilFromDays (ms.toNat / 86400000)
  toString c.2.1 ++ "月" ++ toString c.2.2 ++ "日"

/-- The base notification text built in reminder-job.ts lines 50-59: header,
title, date/time, optional location line, lead-time label, optional custom
message. -/
def composeBase (e : Event) (r : Reminder) : String :=
  let base := "🔔 <b>予定のリマインダー</b>\n\n📅 <b>" ++ e.title ++ "</b>\n⏰ "
    ++ formatEventDate e.startTimeMs ++ " " ++ formatEventTime e.startTimeMs ++ "\n"
    ++ (match e.location with
        | some l => "📍 " ++ l ++ "\n"
        | none => "")
    ++ "\n⏳ " ++ reminderLabel r.minutesBefore ++ "に開始します"
  match r.customMessage with
  | some c => base ++ "\n\n📝 " ++ c
  | none => base

/-- The mention prefix of reminder-job.ts lines 62-77: when `notifySelf` is
set and the owner has a telegram username, the owner copy of the message is
prefixed with the `@`-normalized username. -/
def withMention (dbOpt : Option DB) (e : Event) (message : String) : String :=
  if e.notifySelf then
    match getUserById dbOpt e.userId with
    | some u =>
      match u.telegramUsername with
      | some un =>
        let username := if un.startsWith "@" then un else "@" ++ un
        username ++ "\n\n" ++ message
      | none => message
    | none => message
  else message

/-! ### The scan-dispatch cycle (reminder-job.ts lines 36-111) -/

/-- A delivery target: the event owner's own chat or a friend's chat id. -/
inductive Recipient where
  | owner (userId : Nat)
  | friendChat (chatId : String)
  deriving Repr, DecidableEq

/-- The runtime environment of one cycle: the clock and, for each possible
effectful call, its outcome — the HTTP result per delivery target, and
whether the `markReminderNotified` write for a given reminder id succeeds
(`false` = the awaited write rejects, i.e. throws). -/
structure Env where
  nowUtcMs : Int
  fetch : Recipient → FetchOutcome
  markOk : Nat → Bool

/-- One attempted `sendTelegramMessage` call and the boolean it returned. -/
structure SendAttempt where
  reminderId : Nat
  recipient : Recipient
  result : Bool
  deriving Repr, DecidableEq

/-- Observable outcome of a cycle: the returned counters, every send
attempt, the `Sent notification to friend` log entries, the reminder ids
successfully marked, whether the cycle was aborted by a thrown error (caught
at the top level), and the database as left behind. -/
structure CycleResult where
  processed : Nat
  sent : Nat
  attempts : List SendAttempt
  friendLogsSent : List (Nat × String)
  marked : List Nat
  aborted : Bool
  finalDb : Option DB
  deriving Repr, DecidableEq

/-- The send attempts of the friend fan-out loop (reminder-job.ts lines
82-90): every tagged friend with a chat id gets one `sendTelegramMessage`
call with the owner's credentials and the friend's chat id as override. -/
def friendSendAttempts (dbOpt : Option DB) (env : Env) (rid ownerUserId : Nat)
    (message : String) (fs : List Friend) : List SendAttempt :=
  fs.filterMap (fun f => f.telegramChatId.map (fun c =>
    { reminderId := rid, recipient := Recipient.friendChat c,
      result := sendTelegramMessage dbOpt ownerUserId message (some c)
        (env.fetch (Recipient.friendChat c)) }))

/-- The `[Reminder] Sent notification to friend …` log lines of
reminder-job.ts line 88: emitted for every friend with a chat id,
unconditionally — the boolean returned by the send is discarded. -/
def friendSentLogs (rid : Nat) (fs : List Friend) : List (Nat × String) :=
  fs.filterMap (fun f => f.telegramChatId.map (fun c => (rid, c)))

/-- The body of the `for` loop in reminder-job.ts lines 43-104 for one
pending `(reminder, event)` pair: bump `processed`, compose the message,
send to the owner (mention-prefixed copy), fan out to tagged friends, bump
`sent` on owner success, then `markReminderNotified`; a rejected mark is the
one uncaught await in the loop, so it sets `aborted`. -/
def stepReminder (env : Env) (acc : CycleResult) (p : Reminder × Event) : CycleResult :=
  let r := p.1
  let e := p.2
  let dbOpt := acc.finalDb
  let message := composeBase e r
  let messageWithMention := withMention dbOpt e message
  let ownerResult := sendTelegramMessage dbOpt e.userId messageWithMention none
    (env.fetch (Recipient.owner e.userId))
  let fs := getEventFriends dbOpt e.id
  let acc1 : CycleResult :=
    { acc with
      processed := acc.processed + 1,
      attempts := acc.attempts
        ++ ({ reminderId := r.id, recipient := Recipient.owner e.userId,
              result := ownerResult } :: friendSendAttempts dbOpt env r.id e.userId message fs),
      friendLogsSent := acc.friendLogsSent ++ friendSentLogs r.id fs,
      sent := if ownerResult then acc.sent + 1 else acc.sent }
  if env.markOk r.id then
    { acc1 with
      marked := acc1.marked ++ [r.id],
      finalDb := dbOpt.map (fun db => markReminderNotified db r.id env.nowUtcMs) }
  else { acc1 with aborted := true }

/-- The `for` loop itself: reminders are handled in order; the first thrown
error leaves the loop (it is caught by the surrounding try of
reminder-job.ts lines 40-110, which returns the counts accumulated so
far). -/
def runPending (env : Env) : CycleResult → List (Reminder × Event) → CycleResult
  | acc, [] => acc
  | acc, p :: rest =>
    let acc1 := stepReminder env acc p
    if acc1.aborted then acc1 else runPending env acc1 rest

/-- The counters and state a cycle starts from. -/
def initCycle (dbOpt : Option DB) : CycleResult :=
  { processed := 0, sent := 0, attempts := [], friendLogsSent := [],
    marked := [], aborted := false, finalDb := dbOpt }

/-- `processReminders` (reminder-job.ts lines 36-111): fetch the pending
pairs once, then run the loop. -/
def processReminders (dbOpt : Option DB) (env : Env) : CycleResult :=
  runPending env (initCycle dbOpt) (getPendingReminders dbOpt env.nowUtcMs)

/-! ### The scheduler (reminder-job.ts lines 113-146) -/

/-- The scheduler's observable state: whether the module-level `intervalId`
is set, and how many `processReminders` cycles are currently in flight
(started and not yet resolved). -/
structure JobState where
  intervalSet : Bool
  inFlight : Nat
  deriving Repr, DecidableEq

/-- `startReminderJob` (lines 116-138): a second start while the interval is
set is a no-op; otherwise one immediate (un-awaited) cycle is started and
the interval is installed. -/
def startReminderJob (s : JobState) : JobState :=
  if s.intervalSet then s
  else { intervalSet := true, inFlight := s.inFlight + 1 }

/-- A timer tick (the `setInterval` callback, lines 132-137): whenever the
interval is set, the callback invokes `processReminders` — there is no check
of whether a previous cycle is still in flight. -/
def timerTick (s : JobState) : JobState :=
  if s.intervalSet then { s with inFlight := s.inFlight + 1 } else s

/-- An in-flight cycle resolving. -/
def cycleCompletes (s : JobState) : JobState :=
  { s with inFlight := s.inFlight - 1 }

/-- `stopReminderJob` (lines 140-146): clears the interval; an in-flight
cycle is left to finish. -/
def stopReminderJob (s : JobState) : JobState :=
  { s with intervalSet := false }

/-! ### Recurrence evaluator (`isEventOnDate`, index.tsx lines 56-99) -/

/-- The calendar-date part of a timestamp, as produced by
`getDatePartsMY` for the event and by the local `getFullYear` /
`getMonth() + 1` / `getDate` reads for the target. -/
structure DateParts where
  year : Nat
  month : Nat
  day : Nat
  deriving Repr, DecidableEq

/-- `repeatType` column values. -/
inductive RepeatType where
  | noRepeat
  | daily
  | weekly
  | monthly
  | yearly
  deriving Repr, DecidableEq

/-- The `year * 10000 + month * 100 + day` encoding index.tsx lines 72-73
use to order calendar dates. -/
def dateNum (p : DateParts) : Nat :=
  p.year * 10000 + p.month * 100 + p.day

/-- Day of week of a Gregorian date, 0 = Sunday, as JavaScript's
`Date.getDay()` returns for `new Date(year, month - 1, day)` (Sakamoto's
method). -/
def dayOfWeek (p : DateParts) : Nat :=
  let t := [0, 3, 2, 5, 0, 3, 5, 1, 4, 6, 2, 4]
  let y := if p.month < 3 then p.year - 1 else p.year
  (y + y / 4 - y / 100 + y / 400 + t.getD (p.month - 1) 0 + p.day) % 7

/-- `isEventOnDate` (index.tsx lines 56-99) on the already-extracted date
parts: false before the anchor date, true on the anchor date, otherwise
dispatch on the repeat type (`weekly` compares day of week, `monthly` the
day of month, `yearly` day and month). -/
def isEventOnDate (eventParts : DateParts) (repeatType : RepeatType)
    (target : DateParts) : Bool :=
  if dateNum target < dateNum eventParts then false
  else if target.year == eventParts.year && target.month == eventParts.month
      && target.day == eventParts.day then true
  else
    match repeatType with
    | RepeatType.daily => true
    | RepeatType.weekly => dayOfWeek target == dayOfWeek eventParts
    | RepeatType.monthly => target.day == eventParts.day
    | RepeatType.yearly => target.day == eventParts.day && target.month == eventParts.month
    | RepeatType.noRepeat => false

/-! ### Statement-level helpers and concrete instances -/

/-- A date whose month and day fields are in calendar range, as the parts
extracted from a JavaScript `Date` always are. -/
def ValidDate (p : DateParts) : Prop :=
  1 ≤ p.month ∧ p.month ≤ 12 ∧ 1 ≤ p.day ∧ p.day ≤ 31

instance (p : DateParts) : Decidable (ValidDate p) := by
  unfold ValidDate
  infer_instance

/-- The database as left behind by a sequence of scan-dispatch cycles, each
run in its own environment. -/
def runCycles (envs : List Env) (dbOpt : Option DB) : Option DB :=
  envs.foldl (fun d env => (processReminders d env).finalDb) dbOpt

/-- `d'` differs from `d` at most in the `reminders` table (the only table
the scan-dispatch cycle writes). -/
def ReminderOnlyUpdate (d d' : Option DB) : Prop :=
  ∃ f : List Reminder → List Reminder,
    d' = d.map (fun db => { db with reminders := f db.reminders })

/-- An event starting at millisecond value 6000000, owned by user 7. -/
def ev0 : Event :=
  { id := 10
    userId := 7
    title := "standup"
    location := none
    startTimeMs := 6000000
    notifySelf := false }

/-- A not-yet-notified reminder 15 minutes before `ev0`. -/
def rem1 : Reminder :=
  { id := 1
    eventId := 10
    minutesBefore := 15
    notified := false
    notifiedAt := none
    customMessage := none }

/-- A not-yet-notified reminder 5 minutes before `ev0`. -/
def rem2 : Reminder :=
  { id := 2
    eventId := 10
    minutesBefore := 5
    notified := false
    notifiedAt := none
    customMessage := none }

/-- A database with two due reminders on one event, used to exercise the
cycle when the first reminder's mark-notified write rejects. -/
def db4 : DB :=
  { users := []
    events := [ev0]
    reminders := [rem1, rem2]
    eventTags := []
    eventFriends := []
    eventDepartments := []
    friends := []
    telegramSettings := [] }

/-- Environment where every delivery succeeds but the mark-notified write
for reminder 1 rejects. -/
def env4 : Env :=
  { nowUtcMs := 6000000 - malaysiaOffset,
    fetch := fun _ => FetchOutcome.response true,
    markOk := fun i => !(i == 1) }

/-- Working telegram settings for user 7. -/
def tset7 : TelegramSetting :=
  { userId := 7
    botToken := some "tok"
    chatId := some "C"
    threadId := none
    enabled := true }

/-- A database with one due reminder on an event owned by user 7, who has
working telegram settings, and two tagged friends with chat ids "A" and
"B". -/
def db5 : DB :=
  { users := []
    events := [ev0]
    reminders := [rem1]
    eventTags := []
    eventFriends := [⟨1, 10, 1⟩, ⟨2, 10, 2⟩]
    eventDepartments := []
    friends := [⟨1, 7, "alice", some "A"⟩, ⟨2, 7, "bob", some "B"⟩]
    telegramSettings := [tset7] }

/-- Environment where delivery to friend chat "A" fails (non-OK response)
while delivery to the owner and to friend chat "B" succeeds; all marks
succeed. -/
def env5 : Env :=
  { nowUtcMs := 6000000 - malaysiaOffset,
    fetch := fun r =>
      match r with
      | Recipient.friendChat c => FetchOutcome.response (!(c == "A"))
      | Recipient.owner _ => FetchOutcome.response true,
    markOk := fun _ => true }

/-- A database with one event that has a tag row, a reminder row, a friend
association row and a department association row. -/
def db8 : DB :=
  { users := []
    events := [⟨1, 1, "party", none, 0, false⟩]
    reminders := [⟨1, 1, 5, false, none, none⟩]
    eventTags := [⟨1, 1, 3⟩]
    eventFriends := [⟨1, 1, 4⟩]
    eventDepartments := [⟨1, 1, 5⟩]
    friends := []
    telegramSettings := [] }

/-- A database with one due reminder whose event owner has no telegram
settings, so every delivery fails. -/
def db2w : DB :=
  { users := []
    events := [ev0]
    reminders := [rem1]
    eventTags := []
    eventFriends := []
    eventDepartments := []
    friends := []
    telegramSettings := [] }

/-- Environment where every delivery throws but every mark succeeds. -/
def env2w : Env :=
  { nowUtcMs := 6000000 - malaysiaOffset
    fetch := fun _ => FetchOutcome.throws
    markOk := fun _ => true }

/-- A database holding one reminder already marked notified alongside one
still-pending reminder. -/
def db3w : DB :=
  { users := []
    events := [ev0]
    reminders := [⟨1, 10, 15, true, some 0, none⟩, rem2]
    eventTags := []
    eventFriends := []
    eventDepartments := []
    friends := []
    telegramSettings := [] }

/-! ## Claims -/

/-- C1: a `(reminder, event)` pair is returned by `getPendingReminders`
exactly when the reminder row has `notified = false`, the event is its
parent, and the notify time `event.startTime - minutesBefore` minutes —
computed by plain subtraction on the stored wall-clock milliseconds, with no
timezone conversion — is at most the current time expressed in the same
wall-clock units (`now + 8h`); the comparison is inclusive. -/
theorem getPendingReminders_mem_iff (db : DB) (now : Int) (r : Reminder) (e : Event) :
    (r, e) ∈ getPendingReminders (some db) now ↔
      (r ∈ db.reminders ∧ r.notified = false ∧ e ∈ db.events ∧ e.id = r.eventId ∧
        e.startTimeMs - (r.minutesBefore : Int) * 60 * 1000 ≤ now + malaysiaOffset) := by
  simp only [getPendingReminders, joinPending, List.mem_filter, List.mem_flatMap,
    List.mem_map, Prod.mk.injEq, beq_iff_eq, beq_false, Bool.not_eq_true',
    decide_eq_true_eq]
  constructor
  · rintro ⟨⟨r', ⟨hr'mem, hr'not⟩, e', ⟨he'mem, he'id⟩, hre, hee⟩, hle⟩
    subst hre
    subst hee
    exact ⟨hr'mem, hr'not, he'mem, he'id, hle⟩
  · rintro ⟨hrmem, hrnot, hemem, heid, hle⟩
    exact ⟨⟨r, ⟨hrmem, hrnot⟩, e, ⟨hemem, heid⟩, rfl, rfl⟩, hle⟩

/-- C9: with no database connection, `getPendingReminders` returns the empty
list rather than throwing, and a scheduler cycle in that state completes
normally with `processed = 0`, `sent = 0`, no aborted error and no send
attempts. -/
theorem no_db_cycle_zero (now : Int) (env : Env) :
    getPendingReminders none now = [] ∧
    (processReminders none env).processed = 0 ∧
    (processReminders none env).sent = 0 ∧
    (processReminders none env).aborted = false ∧
    (processReminders none env).attempts = [] :=
  ⟨rfl, rfl, rfl, rfl, rfl⟩

/-- C10: `sendTelegramMessage` always returns a boolean; the network call is
reached exactly when a settings row exists, notifications are enabled, a bot
token is present, and a target chat id resolves (override or the owner's
own); without these it returns `false` with no call attempted, and with them
it returns `true` exactly on an OK response — a raised error or a non-OK
status yields `false`. -/
theorem sendTelegramMessage_spec (dbOpt : Option DB) (u : Nat) (msg : String)
    (ov : Option String) (f : FetchOutcome) :
    ((sendTelegramMessageRun dbOpt u msg ov f).2 = true ↔
      (∃ s, getTelegramSettings dbOpt u = some s ∧ s.enabled = true ∧
        s.botToken ≠ none ∧ (ov ≠ none ∨ s.chatId ≠ none))) ∧
    (sendTelegramMessage dbOpt u msg ov f = true ↔
      ((sendTelegramMessageRun dbOpt u msg ov f).2 = true ∧ f = FetchOutcome.response true)) := by
  cases hs : getTelegramSettings dbOpt u with
  | none => simp [sendTelegramMessage, sendTelegramMessageRun, hs]
  | some s =>
    cases he : s.enabled <;> cases hb : s.botToken <;> cases ho : ov <;>
      cases hc : s.chatId <;> cases f <;>
        simp_all [sendTelegramMessage, sendTelegramMessageRun, Option.orElse]

/-- C7 counterexample: with the job started and one cycle still in flight, a
timer tick starts a second concurrent cycle instead of skipping or queuing
it. -/
theorem tick_overlaps_inflight_cex :
    (timerTick { intervalSet := true, inFlight := 1 }).inFlight = 2 := by
  decide

/-- C7 amended: each timer tick unconditionally starts a new cycle whenever
the interval is installed — an in-flight cycle does not cause the tick to be
skipped or queued, so cycles can overlap; the only serialization in the
scheduler is that a second `startReminderJob` while running is a no-op. -/
theorem tick_always_starts_cycle (s : JobState) :
    (timerTick s).inFlight = (if s.intervalSet then s.inFlight + 1 else s.inFlight) ∧
    startReminderJob (startReminderJob s) = startReminderJob s := by
  cases h : s.intervalSet <;> simp [timerTick, startReminderJob, h]

/-- C8 counterexample: deleting event 1 removes its reminder and tag rows
and the event row, but its friend association row and department
association row survive. -/
theorem deleteEvent_keeps_friend_rows_cex :
    (deleteEvent db8 1 1).eventFriends = [⟨1, 1, 4⟩] ∧
    (deleteEvent db8 1 1).eventDepartments = [⟨1, 1, 5⟩] ∧
    (deleteEvent db8 1 1).reminders = [] ∧
    (deleteEvent db8 1 1).eventTags = [] ∧
    (deleteEvent db8 1 1).events = [] := by
  decide

/-- C8 amended: deleting an event removes, along with the event row itself
(matched on id and owner), all of that event's reminder rows and tag
association rows, leaving rows of other events unchanged; the event's friend
and department association rows are not removed, and no other table is
touched. -/
theorem deleteEvent_characterization (db : DB) (id uid : Nat) :
    (∀ t : EventTag, t ∈ (deleteEvent db id uid).eventTags ↔
      (t ∈ db.eventTags ∧ t.eventId ≠ id)) ∧
    (∀ r : Reminder, r ∈ (deleteEvent db id uid).reminders ↔
      (r ∈ db.reminders ∧ r.eventId ≠ id)) ∧
    (∀ e : Event, e ∈ (deleteEvent db id uid).events ↔
      (e ∈ db.events ∧ ¬(e.id = id ∧ e.userId = uid))) ∧
    (deleteEvent db id uid).eventFriends = db.eventFriends ∧
    (deleteEvent db id uid).eventDepartments = db.eventDepartments ∧
    (deleteEvent db id uid).friends = db.friends ∧
    (deleteEvent db id uid).users = db.users ∧
    (deleteEvent db id uid).telegramSettings = db.telegramSettings := by
  refine ⟨?_, ?_, ?_, rfl, rfl, rfl, rfl, rfl⟩ <;> intro x <;>
    simp only [deleteEvent, List.mem_filter, beq_iff_eq, bne_iff_ne,
      Bool.not_eq_true', beq_eq_false_iff_ne, Bool.and_eq_false_iff, ne_eq]
  all_goals tauto

/-- C6: for a weekly event anchored at date `D`, `isEventOnDate` returns
true exactly for the candidate dates on or after `D` (in calendar order)
that share `D`'s day of week — in particular true for `D` itself and false
for every date before `D`. -/
theorem weekly_occursOn_iff (D C : DateParts) (hD : ValidDate D) (hC : ValidDate C) :
    isEventOnDate D RepeatType.weekly C = true ↔
      ((D.year < C.year ∨ (D.year = C.year ∧
          (D.month < C.month ∨ (D.month = C.month ∧ D.day ≤ C.day)))) ∧
        dayOfWeek C = dayOfWeek D) := by
  obtain ⟨Dy, Dm, Dd⟩ := D
  obtain ⟨Cy, Cm, Cd⟩ := C
  obtain ⟨hm1, hm2, hd1, hd2⟩ := hD
  obtain ⟨hm1c, hm2c, hd1c, hd2c⟩ := hC
  simp only at hm1 hm2 hd1 hd2 hm1c hm2c hd1c hd2c
  unfold isEventOnDate
  dsimp only [dateNum]
  split
  next hlt =>
    simp only [Bool.false_eq_true, false_iff, not_and]
    intro hle
    omega
  next hge =>
    split
    next heq =>
      simp only [Bool.and_eq_true, beq_iff_eq] at heq
      obtain ⟨⟨h1, h2⟩, h3⟩ := heq
      constructor
      · intro _
        refine ⟨by omega, ?_⟩
        rw [h1, h2, h3]
      · intro _
        rfl
    next hne =>
      simp only [beq_iff_eq]
      constructor
      · intro h
        exact ⟨by omega, h⟩
      · intro h
        exact h.2

/-- C6 witness: at the concrete anchor 2024-01-15 (a Monday) and candidate
2024-01-22 (the following Monday) the equivalence instantiates and the
evaluator accepts the candidate. -/
theorem weekly_occursOn_iff_witness :
    isEventOnDate ⟨2024, 1, 15⟩ RepeatType.weekly ⟨2024, 1, 22⟩ = true :=
  (weekly_occursOn_iff ⟨2024, 1, 15⟩ ⟨2024, 1, 22⟩ (by decide) (by decide)).mpr
    (by decide)

/-! ### Structural lemmas about one loop iteration -/

theorem runPending_nil (env : Env) (acc : CycleResult) :
    runPending env acc [] = acc := rfl

theorem runPending_cons (env : Env) (acc : CycleResult) (p : Reminder × Event)
    (l : List (Reminder × Event)) :
    runPending env acc (p :: l) =
      (if (stepReminder env acc p).aborted then stepReminder env acc p
       else runPending env (stepReminder env acc p) l) := rfl

theorem stepReminder_processed (env : Env) (acc : CycleResult) (p : Reminder × Event) :
    (stepReminder env acc p).processed = acc.processed + 1 := by
  simp only [stepReminder]
  split <;> rfl

theorem stepReminder_aborted (env : Env) (acc : CycleResult) (p : Reminder × Event) :
    (stepReminder env acc p).aborted = (acc.aborted || !(env.markOk p.1.id)) := by
  simp only [stepReminder]
  split <;> simp_all

theorem stepReminder_marked (env : Env) (acc : CycleResult) (p : Reminder × Event) :
    (stepReminder env acc p).marked =
      (if env.markOk p.1.id then acc.marked ++ [p.1.id] else acc.marked) := by
  simp only [stepReminder]
  split <;> simp_all

theorem stepReminder_attempts (env : Env) (acc : CycleResult) (p : Reminder × Event) :
    (stepReminder env acc p).attempts =
      acc.attempts ++
        ({ reminderId := p.1.id, recipient := Recipient.owner p.2.userId,
           result := sendTelegramMessage acc.finalDb p.2.userId
             (withMention acc.finalDb p.2 (composeBase p.2 p.1)) none
             (env.fetch (Recipient.owner p.2.userId)) } ::
          friendSendAttempts acc.finalDb env p.1.id p.2.userId (composeBase p.2 p.1)
            (getEventFriends acc.finalDb p.2.id)) := by
  simp only [stepReminder]
  split <;> rfl

theorem stepReminder_logs (env : Env) (acc : CycleResult) (p : Reminder × Event) :
    (stepReminder env acc p).friendLogsSent =
      acc.friendLogsSent ++
        friendSentLogs p.1.id (getEventFriends acc.finalDb p.2.id) := by
  simp only [stepReminder]
  split <;> rfl

theorem stepReminder_finalDb (env : Env) (acc : CycleResult) (p : Reminder × Event) :
    (stepReminder env acc p).finalDb =
      (if env.markOk p.1.id
       then acc.finalDb.map (fun db => markReminderNotified db p.1.id env.nowUtcMs)
       else acc.finalDb) := by
  simp only [stepReminder]
  split <;> simp_all

theorem friendSendAttempts_reminderId (dbOpt : Option DB) (env : Env)
    (rid uid : Nat) (msg : String) (fs : List Friend) :
    ∀ a ∈ friendSendAttempts dbOpt env rid uid msg fs, a.reminderId = rid := by
  intro a ha
  simp only [friendSendAttempts, List.mem_filterMap, Option.map_eq_some'] at ha
  obtain ⟨f, _, c, _, hfc⟩ := ha
  rw [← hfc]

theorem mem_friendSendAttempts (dbOpt : Option DB) (env : Env)
    (rid uid : Nat) (msg : String) (fs : List Friend) (f : Friend) (c : String)
    (hf : f ∈ fs) (hc : f.telegramChatId = some c) :
    ({ reminderId := rid, recipient := Recipient.friendChat c,
       result := sendTelegramMessage dbOpt uid msg (some c)
         (env.fetch (Recipient.friendChat c)) } : SendAttempt)
      ∈ friendSendAttempts dbOpt env rid uid msg fs := by
  simp only [friendSendAttempts, List.mem_filterMap]
  exact ⟨f, hf, by rw [hc]; rfl⟩

theorem mem_friendSentLogs (rid : Nat) (fs : List Friend) (f : Friend) (c : String)
    (hf : f ∈ fs) (hc : f.telegramChatId = some c) :
    (rid, c) ∈ friendSentLogs rid fs := by
  simp only [friendSentLogs, List.mem_filterMap]
  exact ⟨f, hf, by rw [hc]; rfl⟩

/-! ### Monotonicity of the loop accumulators -/

theorem runPending_marked_mono (env : Env) (l : List (Reminder × Event)) :
    ∀ acc : CycleResult, ∀ a ∈ acc.marked, a ∈ (runPending env acc l).marked := by
  induction l with
  | nil => intro acc a ha; exact ha
  | cons p rest ih =>
    intro acc a ha
    rw [runPending_cons]
    have hstep : a ∈ (stepReminder env acc p).marked := by
      rw [stepReminder_marked]
      split
      · exact List.mem_append_left _ ha
      · exact ha
    split
    · exact hstep
    · exact ih _ a hstep

theorem runPending_attempts_mono (env : Env) (l : List (Reminder × Event)) :
    ∀ acc : CycleResult, ∀ a ∈ acc.attempts, a ∈ (runPending env acc l).attempts := by
  induction l with
  | nil => intro acc a ha; exact ha
  | cons p rest ih =>
    intro acc a ha
    rw [runPending_cons]
    have hstep : a ∈ (stepReminder env acc p).attempts := by
      rw [stepReminder_attempts]
      exact List.mem_append_left _ ha
    split
    · exact hstep
    · exact ih _ a hstep

theorem runPending_logs_mono (env : Env) (l : List (Reminder × Event)) :
    ∀ acc : CycleResult, ∀ a ∈ acc.friendLogsSent,
      a ∈ (runPending env acc l).friendLogsSent := by
  induction l with
  | nil => intro acc a ha; exact ha
  | cons p rest ih =>
    intro acc a ha
    rw [runPending_cons]
    have hstep : a ∈ (stepReminder env acc p).friendLogsSent := by
      rw [stepReminder_logs]
      exact List.mem_append_left _ ha
    split
    · exact hstep
    · exact ih _ a hstep

theorem runPending_all_marked (env : Env) (l : List (Reminder × Event)) :
    ∀ acc : CycleResult, acc.aborted = false →
      (∀ p ∈ l, env.markOk p.1.id = true) →
      ∀ p ∈ l, p.1.id ∈ (runPending env acc l).marked ∧
        ∃ b : Bool,
          SendAttempt.mk p.1.id (Recipient.owner p.2.userId) b
            ∈ (runPending env acc l).attempts := by
  induction l with
  | nil => intro acc _ _ p hp; exact absurd hp (List.not_mem_nil p)
  | cons q rest ih =>
    intro acc habort hmark p hp
    have hq : env.markOk q.1.id = true := hmark q (List.mem_cons_self q rest)
    have habort1 : (stepReminder env acc q).aborted = false := by
      rw [stepReminder_aborted, habort, hq]
      rfl
    rw [runPending_cons, if_neg (by rw [habort1]; exact Bool.false_ne_true)]
    rcases List.mem_cons.mp hp with hpq | hprest
    · subst hpq
      constructor
      · apply runPending_marked_mono
        rw [stepReminder_marked, if_pos hq]
        exact List.mem_append_right _ (List.mem_singleton_self _)
      · refine ⟨sendTelegramMessage acc.finalDb p.2.userId
          (withMention acc.finalDb p.2 (composeBase p.2 p.1)) none
          (env.fetch (Recipient.owner p.2.userId)), ?_⟩
        apply runPending_attempts_mono
        rw [stepReminder_attempts]
        exact List.mem_append_right _ (List.mem_cons_self _ _)
    · exact ih _ habort1 (fun r hr => hmark r (List.mem_cons_of_mem q hr)) p hprest

/-- C2: within one cycle, every reminder returned by the pending query whose
mark-notified write does not itself reject is marked `notified = true`, with
no assumption on any delivery outcome (the `fetch` oracle is arbitrary, so
this covers a dispatch whose sends all fail); its owner dispatch is also
attempted. -/
theorem marked_regardless_of_delivery (dbOpt : Option DB) (env : Env)
    (hmark : ∀ p ∈ getPendingReminders dbOpt env.nowUtcMs, env.markOk p.1.id = true) :
    ∀ p ∈ getPendingReminders dbOpt env.nowUtcMs,
      p.1.id ∈ (processReminders dbOpt env).marked ∧
      ∃ b : Bool,
        SendAttempt.mk p.1.id (Recipient.owner p.2.userId) b
          ∈ (processReminders dbOpt env).attempts :=
  runPending_all_marked env (getPendingReminders dbOpt env.nowUtcMs)
    (initCycle dbOpt) rfl hmark

/-- C2 witness: in a database with one due reminder whose owner has no
telegram settings (every delivery fails), that reminder is still dispatched
and marked. -/
theorem marked_regardless_of_delivery_witness :
    (1 : Nat) ∈ (processReminders (some db2w) env2w).marked ∧
    ∃ b : Bool,
      SendAttempt.mk 1 (Recipient.owner 7) b
        ∈ (processReminders (some db2w) env2w).attempts :=
  marked_regardless_of_delivery (some db2w) env2w (by decide) (rem1, ev0) (by decide)

theorem runPending_abort_char (env : Env) (p : Reminder × Event)
    (l2 : List (Reminder × Event)) :
    ∀ (l1 : List (Reminder × Event)) (acc : CycleResult), acc.aborted = false →
      (∀ q ∈ l1, env.markOk q.1.id = true) → env.markOk p.1.id = false →
      (runPending env acc (l1 ++ p :: l2)).aborted = true ∧
      (runPending env acc (l1 ++ p :: l2)).processed = acc.processed + l1.length + 1 ∧
      (runPending env acc (l1 ++ p :: l2)).marked = acc.marked ++ l1.map (fun q => q.1.id) ∧
      ∀ a ∈ (runPending env acc (l1 ++ p :: l2)).attempts,
        a ∈ acc.attempts ∨ a.reminderId ∈ (l1.map (fun q => q.1.id)) ++ [p.1.id] := by
  intro l1
  induction l1 with
  | nil =>
    intro acc habort _ hp
    have habort1 : (stepReminder env acc p).aborted = true := by
      rw [stepReminder_aborted, habort, hp]
      rfl
    rw [List.nil_append, runPending_cons, if_pos habort1]
    refine ⟨habort1, by rw [stepReminder_processed, List.length_nil], ?_, ?_⟩
    · rw [stepReminder_marked, if_neg (by rw [hp]; exact Bool.false_ne_true)]
      exact (List.append_nil acc.marked).symm
    · intro a ha
      rw [stepReminder_attempts] at ha
      rcases List.mem_append.mp ha with hacc | hnew
      · exact Or.inl hacc
      · refine Or.inr ?_
        rcases List.mem_cons.mp hnew with howner | hfriend
        · subst howner
          exact List.mem_singleton_self _
        · rw [friendSendAttempts_reminderId _ _ _ _ _ _ a hfriend]
          exact List.mem_singleton_self _
  | cons q rest ih =>
    intro acc habort hmark hp
    have hq : env.markOk q.1.id = true := hmark q (List.mem_cons_self q rest)
    have habort1 : (stepReminder env acc q).aborted = false := by
      rw [stepReminder_aborted, habort, hq]
      rfl
    rw [List.cons_append, runPending_cons,
      if_neg (by rw [habort1]; exact Bool.false_ne_true)]
    obtain ⟨c1, c2, c3, c4⟩ :=
      ih (stepReminder env acc q) habort1
        (fun r hr => hmark r (List.mem_cons_of_mem q hr)) hp
    refine ⟨c1, ?_, ?_, ?_⟩
    · rw [c2, stepReminder_processed, List.length_cons]
      omega
    · rw [c3, stepReminder_marked, if_pos hq, List.map_cons, List.append_assoc]
      rfl
    · intro a ha
      rcases c4 a ha with hacc1 | hrest
      · rw [stepReminder_attempts] at hacc1
        rcases List.mem_append.mp hacc1 with hacc | hnew
        · exact Or.inl hacc
        · refine Or.inr (List.mem_append.mpr (Or.inl ?_))
          rw [List.map_cons]
          rcases List.mem_cons.mp hnew with howner | hfriend
          · subst howner
            exact List.mem_cons_self _ _
          · rw [friendSendAttempts_reminderId _ _ _ _ _ _ a hfriend]
            exact List.mem_cons_self _ _
      · refine Or.inr ?_
        rcases List.mem_append.mp hrest with hl | hp1
        · exact List.mem_append.mpr (Or.inl (by rw [List.map_cons]; exact List.mem_cons_of_mem _ hl))
        · exact List.mem_append.mpr (Or.inr hp1)

/-- C4 counterexample: with two due reminders and the mark-notified write of
the first one rejecting, the cycle aborts: the second due reminder is
neither dispatched (no attempt carries its id) nor marked, and `processed`
stops at 1. -/
theorem mark_throw_skips_rest_cex :
    (getPendingReminders (some db4) env4.nowUtcMs).map (fun p => p.1.id) = [1, 2] ∧
    env4.markOk 1 = false ∧
    (processReminders (some db4) env4).aborted = true ∧
    (processReminders (some db4) env4).processed = 1 ∧
    (processReminders (some db4) env4).marked = [] ∧
    (∀ a ∈ (processReminders (some db4) env4).attempts, a.reminderId ≠ 2) ∧
    2 ∉ (processReminders (some db4) env4).marked := by
  decide

/-- C4 amended: delivery failures are caught inside the send and never stop
the cycle, but an exception thrown while marking one reminder is only caught
by the cycle-level handler: the cycle stops there, returning the counts
accumulated so far — the earlier reminders of that cycle were processed and
marked, and the remaining due reminders are neither dispatched nor marked in
that cycle. -/
theorem mark_throw_aborts_cycle (dbOpt : Option DB) (env : Env)
    (l1 l2 : List (Reminder × Event)) (p : Reminder × Event)
    (hpend : getPendingReminders dbOpt env.nowUtcMs = l1 ++ p :: l2)
    (h1 : ∀ q ∈ l1, env.markOk q.1.id = true)
    (hp : env.markOk p.1.id = false) :
    (processReminders dbOpt env).aborted = true ∧
    (processReminders dbOpt env).processed = l1.length + 1 ∧
    (processReminders dbOpt env).marked = l1.map (fun q => q.1.id) ∧
    ∀ a ∈ (processReminders dbOpt env).attempts,
      a.reminderId ∈ (l1.map (fun q => q.1.id)) ++ [p.1.id] := by
  unfold processReminders
  rw [hpend]
  obtain ⟨c1, c2, c3, c4⟩ := runPending_abort_char env p l2 l1 (initCycle dbOpt) rfl h1 hp
  refine ⟨c1, by simpa [initCycle] using c2, by simpa [initCycle] using c3, ?_⟩
  intro a ha
  rcases c4 a ha with hinit | hgood
  · exact absurd hinit (List.not_mem_nil a)
  · exact hgood

/-- C4 witness: the amended theorem instantiated at the concrete
two-reminder database, with the first mark rejecting. -/
theorem mark_throw_aborts_cycle_witness :
    (processReminders (some db4) env4).aborted = true ∧
    (processReminders (some db4) env4).processed = 0 + 1 ∧
    (processReminders (some db4) env4).marked = [] ∧
    ∀ a ∈ (processReminders (some db4) env4).attempts, a.reminderId ∈ [1] := by
  have h := mark_throw_aborts_cycle (some db4) env4 [] [(rem2, ev0)] (rem1, ev0)
    (by decide) (by simp) (by decide)
  simpa using h

/-! ### The cycle only writes the reminders table -/

theorem reminderOnlyUpdate_refl (d : Option DB) : ReminderOnlyUpdate d d :=
  ⟨fun rs => rs, by cases d <;> rfl⟩

theorem reminderOnlyUpdate_trans {d d1 d2 : Option DB}
    (h1 : ReminderOnlyUpdate d d1) (h2 : ReminderOnlyUpdate d1 d2) :
    ReminderOnlyUpdate d d2 := by
  obtain ⟨f, rfl⟩ := h1
  obtain ⟨g, rfl⟩ := h2
  exact ⟨fun rs => g (f rs), by cases d <;> rfl⟩

theorem markReminderNotified_rou (dbOpt : Option DB) (i : Nat) (t : Int) :
    ReminderOnlyUpdate dbOpt
      (dbOpt.map (fun db => markReminderNotified db i t)) :=
  ⟨fun rs => rs.map (fun r =>
      if r.id == i then { r with notified := true, notifiedAt := some t } else r),
    by cases dbOpt <;> rfl⟩

theorem stepReminder_finalDb_rou (env : Env) (acc : CycleResult) (p : Reminder × Event) :
    ReminderOnlyUpdate acc.finalDb (stepReminder env acc p).finalDb := by
  rw [stepReminder_finalDb]
  split
  · exact markReminderNotified_rou acc.finalDb p.1.id env.nowUtcMs
  · exact reminderOnlyUpdate_refl _

theorem getEventFriends_rou {d d1 : Option DB} (h : ReminderOnlyUpdate d d1)
    (eid : Nat) : getEventFriends d1 eid = getEventFriends d eid := by
  obtain ⟨f, rfl⟩ := h
  cases d <;> rfl

theorem getTelegramSettings_rou {d d1 : Option DB} (h : ReminderOnlyUpdate d d1)
    (u : Nat) : getTelegramSettings d1 u = getTelegramSettings d u := by
  obtain ⟨f, rfl⟩ := h
  cases d <;> rfl

theorem getUserById_rou {d d1 : Option DB} (h : ReminderOnlyUpdate d d1)
    (u : Nat) : getUserById d1 u = getUserById d u := by
  obtain ⟨f, rfl⟩ := h
  cases d <;> rfl

theorem sendTelegramMessage_rou {d d1 : Option DB} (h : ReminderOnlyUpdate d d1)
    (u : Nat) (msg : String) (ov : Option String) (fo : FetchOutcome) :
    sendTelegramMessage d1 u msg ov fo = sendTelegramMessage d u msg ov fo := by
  unfold sendTelegramMessage sendTelegramMessageRun
  rw [getTelegramSettings_rou h]

theorem withMention_rou {d d1 : Option DB} (h : ReminderOnlyUpdate d d1)
    (e : Event) (msg : String) : withMention d1 e msg = withMention d e msg := by
  unfold withMention
  rw [getUserById_rou h]

/-- Running the loop over a prefix whose marks succeed reaches the next
pending pair with an accumulator that differs from the initial one only in
the reminders table, and whose attempt/log lists the final result
extends. -/
theorem runPending_reach (env : Env) (p : Reminder × Event)
    (l2 : List (Reminder × Event)) :
    ∀ (l1 : List (Reminder × Event)) (acc : CycleResult), acc.aborted = false →
      (∀ q ∈ l1, env.markOk q.1.id = true) →
      ∃ acc1 : CycleResult,
        ReminderOnlyUpdate acc.finalDb acc1.finalDb ∧ acc1.aborted = false ∧
        runPending env acc (l1 ++ p :: l2) = runPending env acc1 (p :: l2) := by
  intro l1
  induction l1 with
  | nil =>
    intro acc habort _
    exact ⟨acc, reminderOnlyUpdate_refl _, habort, rfl⟩
  | cons q rest ih =>
    intro acc habort hmark
    have hq : env.markOk q.1.id = true := hmark q (List.mem_cons_self q rest)
    have habort1 : (stepReminder env acc q).aborted = false := by
      rw [stepReminder_aborted, habort, hq]
      rfl
    obtain ⟨acc1, hrou, hab1, heq⟩ :=
      ih (stepReminder env acc q) habort1
        (fun r hr => hmark r (List.mem_cons_of_mem q hr))
    refine ⟨acc1, reminderOnlyUpdate_trans (stepReminder_finalDb_rou env acc q) hrou,
      hab1, ?_⟩
    rw [List.cons_append, runPending_cons,
      if_neg (by rw [habort1]; exact Bool.false_ne_true)]
    exact heq

/-- C5 counterexample: one due reminder, owner user 7 with working settings,
two tagged friends; delivery to chat "A" returns non-OK while chat "B" and
the owner succeed.  Both friends are attempted (friend "A"'s send returned
`false`), yet the cycle's only per-friend report — the `Sent notification to
friend` log — lists the failing friend "A" as sent exactly like the
successful friend "B", and the returned counters record only the owner
result; nothing reports friend "A" as not sent. -/
theorem failing_friend_reported_sent_cex :
    SendAttempt.mk 1 (Recipient.friendChat "A") false
        ∈ (processReminders (some db5) env5).attempts ∧
    SendAttempt.mk 1 (Recipient.friendChat "B") true
        ∈ (processReminders (some db5) env5).attempts ∧
    SendAttempt.mk 1 (Recipient.owner 7) true
        ∈ (processReminders (some db5) env5).attempts ∧
    (processReminders (some db5) env5).friendLogsSent = [(1, "A"), (1, "B")] ∧
    (processReminders (some db5) env5).sent = 1 ∧
    (processReminders (some db5) env5).processed = 1 := by
  decide

/-- C5 amended: within one reminder's dispatch every recipient is attempted
independently — the owner first, then every tagged friend with a chat id,
each send with its own outcome, so one recipient's failure never prevents
the others — and the owner's result is the one recorded; but a friend's
delivery result is discarded: every attempted friend is logged as sent
regardless of outcome. -/
theorem dispatch_attempts_all_recipients (dbOpt : Option DB) (env : Env)
    (l1 l2 : List (Reminder × Event)) (p : Reminder × Event)
    (hpend : getPendingReminders dbOpt env.nowUtcMs = l1 ++ p :: l2)
    (h1 : ∀ q ∈ l1, env.markOk q.1.id = true) :
    (SendAttempt.mk p.1.id (Recipient.owner p.2.userId)
        (sendTelegramMessage dbOpt p.2.userId
          (withMention dbOpt p.2 (composeBase p.2 p.1)) none
          (env.fetch (Recipient.owner p.2.userId)))
      ∈ (processReminders dbOpt env).attempts) ∧
    ∀ f ∈ getEventFriends dbOpt p.2.id, ∀ c, f.telegramChatId = some c →
      (SendAttempt.mk p.1.id (Recipient.friendChat c)
          (sendTelegramMessage dbOpt p.2.userId (composeBase p.2 p.1) (some c)
            (env.fetch (Recipient.friendChat c)))
        ∈ (processReminders dbOpt env).attempts) ∧
      (p.1.id, c) ∈ (processReminders dbOpt env).friendLogsSent := by
  unfold processReminders
  rw [hpend]
  obtain ⟨acc1, hrou, hab1, heq⟩ :=
    runPending_reach env p l2 l1 (initCycle dbOpt) rfl h1
  have hinit : (initCycle dbOpt).finalDb = dbOpt := rfl
  rw [hinit] at hrou
  rw [heq]
  rw [runPending_cons]
  have howner :
      SendAttempt.mk p.1.id (Recipient.owner p.2.userId)
        (sendTelegramMessage dbOpt p.2.userId
          (withMention dbOpt p.2 (composeBase p.2 p.1)) none
          (env.fetch (Recipient.owner p.2.userId)))
        ∈ (stepReminder env acc1 p).attempts := by
    rw [stepReminder_attempts, sendTelegramMessage_rou hrou, withMention_rou hrou]
    exact List.mem_append_right _ (List.mem_cons_self _ _)
  have hfriends : ∀ f ∈ getEventFriends dbOpt p.2.id, ∀ c, f.telegramChatId = some c →
      (SendAttempt.mk p.1.id (Recipient.friendChat c)
          (sendTelegramMessage dbOpt p.2.userId (composeBase p.2 p.1) (some c)
            (env.fetch (Recipient.friendChat c)))
        ∈ (stepReminder env acc1 p).attempts) ∧
      (p.1.id, c) ∈ (stepReminder env acc1 p).friendLogsSent := by
    intro f hf c hc
    rw [← getEventFriends_rou hrou] at hf
    constructor
    · rw [stepReminder_attempts, sendTelegramMessage_rou hrou]
      refine List.mem_append_right _ (List.mem_cons_of_mem _ ?_)
      rw [← sendTelegramMessage_rou hrou]
      exact mem_friendSendAttempts acc1.finalDb env p.1.id p.2.userId
        (composeBase p.2 p.1) (getEventFriends acc1.finalDb p.2.id) f c hf hc
    · rw [stepReminder_logs]
      exact List.mem_append_right _
        (mem_friendSentLogs p.1.id (getEventFriends acc1.finalDb p.2.id) f c hf hc)
  split
  · exact ⟨howner, hfriends⟩
  · refine ⟨runPending_attempts_mono env l2 _ _ howner, ?_⟩
    intro f hf c hc
    obtain ⟨ha, hl⟩ := hfriends f hf c hc
    exact ⟨runPending_attempts_mono env l2 _ _ ha, runPending_logs_mono env l2 _ _ hl⟩

/-- C5 witness: the amended theorem instantiated at the concrete database
with friends "A" (failing) and "B" (succeeding). -/
theorem dispatch_attempts_all_recipients_witness :
    (SendAttempt.mk 1 (Recipient.owner 7)
        (sendTelegramMessage (some db5) 7
          (withMention (some db5) ev0 (composeBase ev0 rem1)) none
          (env5.fetch (Recipient.owner 7)))
      ∈ (processReminders (some db5) env5).attempts) ∧
    ∀ f ∈ getEventFriends (some db5) 10, ∀ c, f.telegramChatId = some c →
      (SendAttempt.mk 1 (Recipient.friendChat c)
          (sendTelegramMessage (some db5) 7 (composeBase ev0 rem1) (some c)
            (env5.fetch (Recipient.friendChat c)))
        ∈ (processReminders (some db5) env5).attempts) ∧
      (1, c) ∈ (processReminders (some db5) env5).friendLogsSent :=
  dispatch_attempts_all_recipients (some db5) env5 [] [] (rem1, ev0)
    (by decide) (by simp)

/-! ### The notified flag is monotone across cycles -/

theorem mem_pending_elim {dOpt : Option DB} {now : Int} {p : Reminder × Event}
    (hp : p ∈ getPendingReminders dOpt now) :
    ∃ db, dOpt = some db ∧ p.1 ∈ db.reminders ∧ p.1.notified = false := by
  cases dOpt with
  | none => exact absurd hp (List.not_mem_nil p)
  | some db =>
    refine ⟨db, rfl, ?_⟩
    have hj : p ∈ joinPending db := List.mem_of_mem_filter hp
    simp only [joinPending, List.mem_flatMap, List.mem_filter, List.mem_map,
      beq_iff_eq, beq_false, Bool.not_eq_true'] at hj
    obtain ⟨r, ⟨hrmem, hrnot⟩, e, _, hre⟩ := hj
    rw [← hre]
    exact ⟨hrmem, hrnot⟩

theorem markReminderNotified_preserves (db : DB) (i j : Nat) (t : Int)
    (h : ∀ r ∈ db.reminders, r.id = i → r.notified = true) :
    ∀ r ∈ (markReminderNotified db j t).reminders, r.id = i → r.notified = true := by
  intro r hr hid
  simp only [markReminderNotified, List.mem_map] at hr
  obtain ⟨r0, hr0, hmap⟩ := hr
  by_cases hj : (r0.id == j) = true
  · rw [← hmap, if_pos hj]
  · rw [← hmap, if_neg hj] at hid ⊢
    exact h r0 hr0 hid

theorem stepReminder_preserves_notified (env : Env) (acc : CycleResult)
    (p : Reminder × Event) (i : Nat)
    (h : ∀ db, acc.finalDb = some db → ∀ r ∈ db.reminders, r.id = i → r.notified = true) :
    ∀ db, (stepReminder env acc p).finalDb = some db →
      ∀ r ∈ db.reminders, r.id = i → r.notified = true := by
  intro db hdb
  rw [stepReminder_finalDb] at hdb
  split at hdb
  · cases hacc : acc.finalDb with
    | none =>
      rw [hacc] at hdb
      exact absurd hdb (by simp)
    | some db0 =>
      rw [hacc] at hdb
      simp only [Option.map_some'] at hdb
      rw [← Option.some.inj hdb]
      exact markReminderNotified_preserves db0 i p.1.id env.nowUtcMs (h db0 hacc)
  · exact h db hdb

theorem runPending_preserves_notified (env : Env) (i : Nat)
    (l : List (Reminder × Event)) :
    ∀ acc : CycleResult,
      (∀ db, acc.finalDb = some db → ∀ r ∈ db.reminders, r.id = i → r.notified = true) →
      ∀ db, (runPending env acc l).finalDb = some db →
        ∀ r ∈ db.reminders, r.id = i → r.notified = true := by
  induction l with
  | nil => intro acc h; exact h
  | cons p rest ih =>
    intro acc h
    rw [runPending_cons]
    split
    · exact stepReminder_preserves_notified env acc p i h
    · exact ih _ (stepReminder_preserves_notified env acc p i h)

theorem runCycles_preserves_notified (i : Nat) (envs : List Env) :
    ∀ dOpt : Option DB,
      (∀ db, dOpt = some db → ∀ r ∈ db.reminders, r.id = i → r.notified = true) →
      ∀ db, runCycles envs dOpt = some db →
        ∀ r ∈ db.reminders, r.id = i → r.notified = true := by
  induction envs with
  | nil => intro dOpt h; exact h
  | cons env rest ih =>
    intro dOpt h
    exact ih _ (runPending_preserves_notified env i _ (initCycle dOpt) h)

theorem runPending_attempts_from (env : Env) (l : List (Reminder × Event)) :
    ∀ acc, ∀ a ∈ (runPending env acc l).attempts,
      a ∈ acc.attempts ∨ ∃ p ∈ l, a.reminderId = p.1.id := by
  induction l with
  | nil => intro acc a ha; exact Or.inl ha
  | cons p rest ih =>
    intro acc a ha
    rw [runPending_cons] at ha
    split at ha
    · rw [stepReminder_attempts] at ha
      rcases List.mem_append.mp ha with h1 | h2
      · exact Or.inl h1
      · refine Or.inr ⟨p, List.mem_cons_self p rest, ?_⟩
        rcases List.mem_cons.mp h2 with h3 | h4
        · rw [h3]
        · exact friendSendAttempts_reminderId _ _ _ _ _ _ a h4
    · rcases ih _ a ha with h1 | ⟨q, hq, hid⟩
      · rw [stepReminder_attempts] at h1
        rcases List.mem_append.mp h1 with h2 | h3
        · exact Or.inl h2
        · refine Or.inr ⟨p, List.mem_cons_self p rest, ?_⟩
          rcases List.mem_cons.mp h3 with h4 | h5
          · rw [h4]
          · exact friendSendAttempts_reminderId _ _ _ _ _ _ a h5
      · exact Or.inr ⟨q, List.mem_cons_of_mem p hq, hid⟩

/-- C3: the pending query only ever returns rows with `notified = false`,
and `markReminderNotified` (the only reminder write a cycle performs) never
reverts the flag; hence a reminder whose rows are already marked
`notified = true` never reappears in the pending output after any number of
further cycles and is never dispatched again (no attempt of a later cycle
carries its id). -/
theorem notified_monotone_never_repending (db : DB) (i : Nat)
    (hi : ∀ r ∈ db.reminders, r.id = i → r.notified = true)
    (envs : List Env) (env : Env) (now : Int) :
    (∀ p ∈ getPendingReminders (some db) now, p.1.notified = false) ∧
    (∀ p ∈ getPendingReminders (runCycles envs (some db)) env.nowUtcMs, p.1.id ≠ i) ∧
    (∀ a ∈ (processReminders (runCycles envs (some db)) env).attempts,
      a.reminderId ≠ i) := by
  have hbase : ∀ db0, (some db : Option DB) = some db0 →
      ∀ r ∈ db0.reminders, r.id = i → r.notified = true := by
    intro db0 h0
    cases h0
    exact hi
  have hinv := runCycles_preserves_notified i envs (some db) hbase
  have hpend : ∀ p ∈ getPendingReminders (runCycles envs (some db)) env.nowUtcMs,
      p.1.id ≠ i := by
    intro p hp hpid
    obtain ⟨db1, hdb1, hpmem, hpnot⟩ := mem_pending_elim hp
    rw [hinv db1 hdb1 p.1 hpmem hpid] at hpnot
    exact Bool.noConfusion hpnot
  refine ⟨?_, hpend, ?_⟩
  · intro p hp
    obtain ⟨_, _, _, hpnot⟩ := mem_pending_elim hp
    exact hpnot
  · intro a ha haid
    rcases runPending_attempts_from env _ (initCycle _) a ha with h0 | ⟨q, hq, hqid⟩
    · exact absurd h0 (List.not_mem_nil a)
    · exact hpend q hq (by rw [← hqid, haid])

/-- C3 witness: in a database with reminder 1 already notified and reminder
2 still due, the theorem instantiates: after one further cycle nothing
pending or attempted carries id 1. -/
theorem notified_monotone_never_repending_witness :
    (∀ p ∈ getPendingReminders (some db3w) env2w.nowUtcMs, p.1.notified = false) ∧
    (∀ p ∈ getPendingReminders (runCycles [env2w] (some db3w)) env2w.nowUtcMs,
      p.1.id ≠ 1) ∧
    (∀ a ∈ (processReminders (runCycles [env2w] (some db3w)) env2w).attempts,
      a.reminderId ≠ 1) :=
  notified_monotone_never_repending db3w 1 (by decide) [env2w] env2w env2w.nowUtcMs

end SharedCalendar
